import Mathlib

/-!
Verification of the hand-spray sketch (`src/App.tsx` / `SprayCanvas`).

The per-frame gesture pipeline is shallowly embedded over `ℝ`:
p5.js numeric helpers (`map`, `constrain`) are translated from their
reference implementations, the geometry and intensity mapping follow the
body of `SprayCanvas.draw`, the painted canvas is modelled as the set of
covered points of the plane, and the event handlers (`onResults`,
`draw`, `mousePressed`, `keyPressed`) become a step function on an
application state.
-/

set_option autoImplicit false

namespace SprayCanvas

/-- One MediaPipe hand landmark; coordinates are normalized to 0..1. -/
structure Landmark where
  x : ℝ
  y : ℝ

/-- The 21 landmarks MediaPipe reports for a single tracked hand. -/
abbrev LandmarkSet := Fin 21 → Landmark

/-- `results.multiHandLandmarks`: the list of tracked hands (at most one here). -/
abbrev Results := List LandmarkSet

/-- The fixed spray palette (`PALETTE` in the source): 7 colors. -/
def PALETTE : List String :=
  ["#FF0055", "#00FF99", "#00CCFF", "#FFFF00", "#FF6600", "#CC00FF", "#FFFFFF"]

namespace p5

/-- p5.js `map(n, start1, stop1, start2, stop2)`: unclamped linear interpolation,
`(n - start1) / (stop1 - start1) * (stop2 - start2) + start2`. -/
def map {α : Type} [LinearOrderedField α] (n start1 stop1 start2 stop2 : α) : α :=
  (n - start1) / (stop1 - start1) * (stop2 - start2) + start2

/-- p5.js `constrain(n, low, high) = Math.max(Math.min(n, high), low)`. -/
def constrain {α : Type} [LinearOrderedField α] (n low high : α) : α :=
  max (min n high) low

end p5

/-- `pinchDistance`: screen-space Euclidean distance between thumb tip and
index fingertip, each coordinate scaled by the canvas dimension first. -/
noncomputable def pinchDistance (thumbTip indexTip : Landmark) (width height : ℝ) : ℝ :=
  let pinchDistX := (thumbTip.x - indexTip.x) * width
  let pinchDistY := (thumbTip.y - indexTip.y) * height
  Real.sqrt (pinchDistX * pinchDistX + pinchDistY * pinchDistY)

/-- `handSize`: screen-space Euclidean distance between wrist and middle-finger
MCP joint, the depth proxy. -/
noncomputable def handSize (wrist middleMCP : Landmark) (width height : ℝ) : ℝ :=
  let sizeDistX := (wrist.x - middleMCP.x) * width
  let sizeDistY := (wrist.y - middleMCP.y) * height
  Real.sqrt (sizeDistX * sizeDistX + sizeDistY * sizeDistY)

/-- `sprayX`: x of the emission point, horizontally mirrored midpoint of the pinch. -/
noncomputable def sprayX (thumbTip indexTip : Landmark) (width : ℝ) : ℝ :=
  (1 - (thumbTip.x + indexTip.x) / 2) * width

/-- `sprayY`: y of the emission point, unmirrored midpoint of the pinch. -/
noncomputable def sprayY (thumbTip indexTip : Landmark) (height : ℝ) : ℝ :=
  ((thumbTip.y + indexTip.y) / 2) * height

/-- The spraying condition of the source: `pinchDistance < 60` (pixels). -/
def isSpraying (pinchDistance : ℝ) : Prop :=
  pinchDistance < 60

noncomputable instance (d : ℝ) : Decidable (isSpraying d) :=
  inferInstanceAs (Decidable (d < 60))

/-- `normalizedSize = p.constrain(handSize, 50, 300)`. -/
noncomputable def normalizedSize (handSize : ℝ) : ℝ :=
  p5.constrain handSize 50 300

/-- `factor = p.map(normalizedSize, 50, 300, 1, 0)`: 1 at hand size 50, 0 at 300. -/
noncomputable def factor (handSize : ℝ) : ℝ :=
  p5.map (normalizedSize handSize) 50 300 1 0

/-- `spreadRadius = p.map(factor, 0, 1, 10, 60)`. -/
noncomputable def spreadRadius (handSize : ℝ) : ℝ :=
  p5.map (factor handSize) 0 1 10 60

/-- `particleCount = p.map(factor, 0, 1, 5, 40)`. -/
noncomputable def particleCount (handSize : ℝ) : ℝ :=
  p5.map (factor handSize) 0 1 5 40

/-- `particleSizeBase = p.map(factor, 0, 1, 2, 6)`. -/
noncomputable def particleSizeBase (handSize : ℝ) : ℝ :=
  p5.map (factor handSize) 0 1 2 6

/-- `opacity = p.map(factor, 0, 1, 50, 255)`. -/
noncomputable def opacity (handSize : ℝ) : ℝ :=
  p5.map (factor handSize) 0 1 50 255

/-- The painted canvas, modelled as the set of covered points of the plane;
`p.clear()` resets it to `∅` and every drawing primitive only adds points. -/
abbrev Canvas := Set (ℝ × ℝ)

/-- Points covered by a filled circle of diameter `d` centered at `(cx, cy)`
(`p.circle(cx, cy, d)` with fill). -/
def circlePts (cx cy d : ℝ) : Canvas :=
  {q | (q.1 - cx) ^ 2 + (q.2 - cy) ^ 2 ≤ (d / 2) ^ 2}

/-- Points covered by the stroked outline of a circle of diameter `d` with
stroke weight `sw` (`p.circle` after `noFill`): the annulus of the outline. -/
def ringPts (cx cy d sw : ℝ) : Canvas :=
  {q | ((d - sw) / 2) ^ 2 ≤ (q.1 - cx) ^ 2 + (q.2 - cy) ^ 2 ∧
       (q.1 - cx) ^ 2 + (q.2 - cy) ^ 2 ≤ ((d + sw) / 2) ^ 2}

/-- The random draws one frame consumes: per particle index `i`, the two
Gaussian offsets (`p.randomGaussian(0, spreadRadius / 3)`) and the uniform
size sample (`p.random(particleSizeBase * 0.5, particleSizeBase * 1.5)`). -/
structure Rand where
  xOff : ℕ → ℝ
  yOff : ℕ → ℝ
  size : ℕ → ℝ

/-- Number of iterations of `for (let i = 0; i < particleCount; i++)`:
the first natural `i` at which the loop guard `i < particleCount` fails. -/
noncomputable def emittedCount (particleCount : ℝ) : ℕ :=
  sInf {i : ℕ | ¬ ((i : ℝ) < particleCount)}

/-- The filled circles the particle loop paints in one spraying frame:
particle `i` is a disc centered at the emission point plus its Gaussian
offsets, with its sampled diameter. -/
noncomputable def particleCircles (sx sy hs : ℝ) (r : Rand) : List Canvas :=
  (List.range (emittedCount (particleCount hs))).map fun i =>
    circlePts (sx + r.xOff i) (sy + r.yOff i) (r.size i)

/-- The effect of one `p.draw` tick on the canvas: nothing without results or
with an empty hand list; otherwise the cursor ring is painted, and when the
pinch is closed also the color dot and the particle cluster. The buffer is
never cleared here (the source draws on top of the previous frame). -/
noncomputable def drawFrame (canvas : Canvas) (results : Option Results)
    (width height : ℝ) (r : Rand) : Canvas :=
  match results with
  | none => canvas
  | some rs =>
    match rs with
    | [] => canvas
    | landmarks :: _ =>
      let thumbTip := landmarks 4
      let indexTip := landmarks 8
      let wrist := landmarks 0
      let middleMCP := landmarks 9
      let pd := pinchDistance thumbTip indexTip width height
      let sx := sprayX thumbTip indexTip width
      let sy := sprayY thumbTip indexTip height
      let afterCursor := canvas ∪ ringPts sx sy 15 2
      let afterDot :=
        if isSpraying pd then afterCursor ∪ circlePts sx sy 8 else afterCursor
      if isSpraying pd then
        (particleCircles sx sy (handSize wrist middleMCP width height) r).foldl
          (fun c circ => c ∪ circ) afterDot
      else afterDot

/-- The mutable state of the component: the latest tracker results
(`handResultsRef`), the paint buffer, and the current palette index. -/
structure AppState where
  handResults : Option Results
  canvas : Canvas
  colorIndex : ℕ

/-- The events that mutate the state: a tracker callback (`hands.onResults`),
a render tick (`p.draw`), a mouse click (`p.mousePressed`) and a key press
(`p.keyPressed`). -/
inductive Event where
  | onResults (r : Results)
  | drawTick (width height : ℝ) (rand : Rand)
  | mousePressed
  | keyPressed (key : Char)

/-- One step of the event-driven state machine, translated handler by handler:
`onResults` overwrites the stored results; the draw tick only paints;
a click advances the palette index modulo the palette size; a key press
clears the canvas exactly when the key is the space character. -/
noncomputable def step (s : AppState) : Event → AppState
  | .onResults r => { s with handResults := some r }
  | .drawTick w h rand => { s with canvas := drawFrame s.canvas s.handResults w h rand }
  | .mousePressed => { s with colorIndex := (s.colorIndex + 1) % PALETTE.length }
  | .keyPressed k => if k = Char.ofNat 32 then { s with canvas := ∅ } else s

/-- The component's initial state: no tracker results yet (`useRef(null)`),
a transparent canvas (`p.clear()` in setup), palette index 0 (`useState(0)`). -/
def initialState : AppState :=
  { handResults := none, canvas := ∅, colorIndex := 0 }

/-- C2 helper: for hand sizes at or below the lower clamp, the factor saturates at 1. -/
theorem factor_eq_one_of_le {hs : ℝ} (h : hs ≤ 50) : factor hs = 1 := by
  have h300 : hs ≤ 300 := h.trans (by norm_num)
  simp only [factor, normalizedSize, p5.constrain, p5.map, min_eq_left h300, max_eq_right h]
  norm_num

/-- C3 helper: for hand sizes at or above the upper clamp, the factor saturates at 0. -/
theorem factor_eq_zero_of_ge {hs : ℝ} (h : 300 ≤ hs) : factor hs = 0 := by
  simp only [factor, normalizedSize, p5.constrain, p5.map, min_eq_right h,
    max_eq_left (by norm_num : (50 : ℝ) ≤ 300)]
  norm_num

/-- C5 helper: within the clamp band the constrain step is the identity. -/
theorem normalizedSize_eq_self {hs : ℝ} (h1 : 50 ≤ hs) (h2 : hs ≤ 300) :
    normalizedSize hs = hs := by
  simp only [normalizedSize, p5.constrain, min_eq_left h2, max_eq_left h1]

/-- C1: `isSpraying` holds exactly when the screen-space pinch distance between
thumb tip (landmark 4) and index fingertip (landmark 8) is strictly below 60
pixels; in particular a pinch distance of 59.999 sprays and 60.0 does not. -/
theorem C1_isSpraying_strict_threshold :
    (∀ (lm : LandmarkSet) (width height : ℝ),
      isSpraying (pinchDistance (lm 4) (lm 8) width height) ↔
        pinchDistance (lm 4) (lm 8) width height < 60) ∧
    isSpraying (59999 / 1000) ∧ ¬ isSpraying 60 := by
  refine ⟨fun lm w h => Iff.rfl, ?_, ?_⟩ <;> simp only [isSpraying] <;> norm_num

/-- C2: every hand size at or below 50 saturates the factor at 1, and at hand
size 50 the emission parameters are exactly spreadRadius 60, particleCount 40,
particleSizeBase 6, opacity 255. -/
theorem C2_low_end_saturation :
    (∀ hs : ℝ, hs ≤ 50 → factor hs = 1) ∧
    spreadRadius 50 = 60 ∧ particleCount 50 = 40 ∧
    particleSizeBase 50 = 6 ∧ opacity 50 = 255 := by
  have h1 : factor 50 = 1 := factor_eq_one_of_le le_rfl
  refine ⟨fun hs h => factor_eq_one_of_le h, ?_, ?_, ?_, ?_⟩ <;>
    norm_num [spreadRadius, particleCount, particleSizeBase, opacity, h1, p5.map]

/-- Witness for C2 at the concrete hand size 50. -/
theorem C2_low_end_saturation_witness : (50 : ℝ) ≤ 50 ∧ factor 50 = 1 :=
  ⟨le_rfl, C2_low_end_saturation.1 50 le_rfl⟩

/-- C3: every hand size at or above 300 saturates the factor at 0, and at hand
size 300 the emission parameters are exactly spreadRadius 10, particleCount 5,
particleSizeBase 2, opacity 50. -/
theorem C3_high_end_saturation :
    (∀ hs : ℝ, 300 ≤ hs → factor hs = 0) ∧
    spreadRadius 300 = 10 ∧ particleCount 300 = 5 ∧
    particleSizeBase 300 = 2 ∧ opacity 300 = 50 := by
  have h0 : factor 300 = 0 := factor_eq_zero_of_ge le_rfl
  refine ⟨fun hs h => factor_eq_zero_of_ge h, ?_, ?_, ?_, ?_⟩ <;>
    norm_num [spreadRadius, particleCount, particleSizeBase, opacity, h0, p5.map]

/-- Witness for C3 at the concrete hand size 300. -/
theorem C3_high_end_saturation_witness : (300 : ℝ) ≤ 300 ∧ factor 300 = 0 :=
  ⟨le_rfl, C3_high_end_saturation.1 300 le_rfl⟩

/-- C4: the emission point mirrors x and keeps y direct, and at
thumbTip = indexTip = (0.2, 0.5) with a 1000 × 800 canvas it is (800, 400). -/
theorem C4_emission_point_mirrored :
    (∀ (thumbTip indexTip : Landmark) (width height : ℝ),
      sprayX thumbTip indexTip width = (1 - (thumbTip.x + indexTip.x) / 2) * width ∧
      sprayY thumbTip indexTip height = ((thumbTip.y + indexTip.y) / 2) * height) ∧
    sprayX (Landmark.mk (1 / 5) (1 / 2)) (Landmark.mk (1 / 5) (1 / 2)) 1000 = 800 ∧
    sprayY (Landmark.mk (1 / 5) (1 / 2)) (Landmark.mk (1 / 5) (1 / 2)) 800 = 400 := by
  refine ⟨fun t i w h => ⟨rfl, rfl⟩, ?_, ?_⟩ <;> norm_num [sprayX, sprayY]

/-- C5: on the clamp band [50, 300] all four emission parameters are antitone
in hand size: a strictly smaller hand size never yields a smaller parameter. -/
theorem C5_intensity_antitone :
    ∀ hs1 hs2 : ℝ, 50 ≤ hs1 → hs1 < hs2 → hs2 ≤ 300 →
      spreadRadius hs2 ≤ spreadRadius hs1 ∧ particleCount hs2 ≤ particleCount hs1 ∧
      particleSizeBase hs2 ≤ particleSizeBase hs1 ∧ opacity hs2 ≤ opacity hs1 := by
  intro hs1 hs2 h1 h12 h2
  have e1 : normalizedSize hs1 = hs1 := normalizedSize_eq_self h1 (le_trans h12.le h2)
  have e2 : normalizedSize hs2 = hs2 := normalizedSize_eq_self (le_trans h1 h12.le) h2
  have hf : factor hs2 ≤ factor hs1 := by
    simp only [factor, p5.map, e1, e2]
    have h := h12.le
    norm_num
    linarith
  refine ⟨?_, ?_, ?_, ?_⟩ <;>
    simp only [spreadRadius, particleCount, particleSizeBase, opacity, p5.map] <;>
    norm_num <;> linarith [hf]

/-- Witness for C5 at the concrete pair of hand sizes 100 < 200. -/
theorem C5_intensity_antitone_witness :
    (50 : ℝ) ≤ 100 ∧ (100 : ℝ) < 200 ∧ (200 : ℝ) ≤ 300 ∧
    spreadRadius 200 ≤ spreadRadius 100 ∧ particleCount 200 ≤ particleCount 100 ∧
    particleSizeBase 200 ≤ particleSizeBase 100 ∧ opacity 200 ≤ opacity 100 :=
  ⟨by norm_num, by norm_num, by norm_num,
    C5_intensity_antitone 100 200 (by norm_num) (by norm_num) (by norm_num)⟩

/-- C6 helper: the JS loop `for (i = 0; i < particleCount; i++)` runs exactly
`⌈particleCount⌉₊` times: its exit index is the ceiling of the bound. -/
theorem emittedCount_eq_ceil (pc : ℝ) : emittedCount pc = ⌈pc⌉₊ := by
  have hmem : ⌈pc⌉₊ ∈ {i : ℕ | ¬ ((i : ℝ) < pc)} := not_lt.mpr (Nat.le_ceil pc)
  have h2 : emittedCount pc ∈ {i : ℕ | ¬ ((i : ℝ) < pc)} :=
    Nat.sInf_mem (Set.nonempty_of_mem hmem)
  exact le_antisymm (Nat.sInf_le hmem) (Nat.ceil_le.mpr (not_lt.mp h2))

/-- C6 counterexample: at hand size 299 the mapped particle count is 5.14; the
loop draws 6 particles, but `round(5.14) = 5`, so the frame does not draw
`round(particleCount)` circles. -/
theorem C6_round_counterexample :
    ((particleCircles 0 0 299 (Rand.mk (fun _ => 0) (fun _ => 0) (fun _ => 0))).length : ℤ) ≠
      round (particleCount 299) := by
  have hpc : particleCount 299 = 257 / 50 := by
    norm_num [particleCount, factor, normalizedSize, p5.constrain, p5.map,
      min_eq_left (by norm_num : (299 : ℝ) ≤ 300),
      max_eq_left (by norm_num : (50 : ℝ) ≤ 299)]
  have hlen : (particleCircles 0 0 299 (Rand.mk (fun _ => 0) (fun _ => 0) (fun _ => 0))).length = 6 := by
    simp only [particleCircles, List.length_map, List.length_range,
      emittedCount_eq_ceil, hpc]
    norm_num [Nat.ceil_eq_iff]
  have hround : round (particleCount 299) = 5 := by
    rw [hpc, round_eq]
    norm_num [Int.floor_eq_iff]
  rw [hlen, hround]
  norm_num

/-- C6 amended: every spraying frame draws exactly `⌈particleCount⌉` filled
particle circles (the ceiling of the fractional mapped count, not its
rounding), in addition to the cursor indicator. -/
theorem C6_ceil_particle_count :
    ∀ (sx sy hs : ℝ) (r : Rand),
      (particleCircles sx sy hs r).length = ⌈particleCount hs⌉₊ := by
  intro sx sy hs r
  simp only [particleCircles, List.length_map, List.length_range, emittedCount_eq_ceil]

/-- C7 helper: folding unions over a list of painted regions only grows the canvas. -/
theorem subset_foldl_union (l : List Canvas) (c : Canvas) :
    c ⊆ l.foldl (fun a b => a ∪ b) c := by
  induction l generalizing c with
  | nil => exact subset_rfl
  | cons hd tl ih =>
      simp only [List.foldl_cons]
      exact Set.Subset.trans Set.subset_union_left (ih (c ∪ hd))

/-- C7 helper: one draw tick of the sketch never erases painted points. -/
theorem canvas_subset_drawFrame (c : Canvas) (res : Option Results) (w h : ℝ) (r : Rand) :
    c ⊆ drawFrame c res w h r := by
  cases res with
  | none => exact subset_rfl
  | some rs =>
      cases rs with
      | nil => exact subset_rfl
      | cons landmarks rest =>
          simp only [drawFrame]
          split_ifs with hp
          · exact Set.Subset.trans
              (Set.Subset.trans Set.subset_union_left Set.subset_union_left)
              (subset_foldl_union _ _)
          · exact Set.subset_union_left

/-- C7: the draw tick never clears the buffer: the previous canvas is contained
in the canvas after any draw tick, and in particular everything painted by one
frame is still present after the next frame when no clear happens in between. -/
theorem C7_canvas_accumulation :
    (∀ (s : AppState) (w h : ℝ) (r : Rand),
      s.canvas ⊆ (step s (Event.drawTick w h r)).canvas) ∧
    (∀ (s : AppState) (w1 h1 w2 h2 : ℝ) (r1 r2 : Rand),
      (step s (Event.drawTick w1 h1 r1)).canvas ⊆
        (step (step s (Event.drawTick w1 h1 r1)) (Event.drawTick w2 h2 r2)).canvas) := by
  constructor
  · intro s w h r
    exact canvas_subset_drawFrame s.canvas s.handResults w h r
  · intro s w1 h1 w2 h2 r1 r2
    exact canvas_subset_drawFrame _ _ _ _ _

/-- C8: the palette has exactly 7 colors and, starting from index 0, N click
cycles land on index N mod 7; hence the index always stays below 7. -/
theorem C8_palette_cycling_mod :
    PALETTE.length = 7 ∧
    (∀ N : ℕ,
      ((fun st => step st Event.mousePressed)^[N] initialState).colorIndex = N % 7) ∧
    (∀ N : ℕ,
      ((fun st => step st Event.mousePressed)^[N] initialState).colorIndex < 7) := by
  have hlen : PALETTE.length = 7 := rfl
  have hmod : ∀ N : ℕ,
      ((fun st => step st Event.mousePressed)^[N] initialState).colorIndex = N % 7 := by
    intro N
    induction N with
    | zero => rfl
    | succ n ih =>
        rw [Function.iterate_succ_apply']
        show (((fun st => step st Event.mousePressed)^[n] initialState).colorIndex + 1) %
          PALETTE.length = (n + 1) % 7
        rw [ih, hlen]
        omega
  exact ⟨hlen, hmod, fun N => by rw [hmod N]; omega⟩

/-- C9: a render tick never changes the stored tracker results — only a new
`onResults` callback replaces them — so once a hand has been seen its last
GestureState persists across arbitrarily many draw ticks, with no timeout. -/
theorem C9_sticky_hand_state :
    (∀ (s : AppState) (w h : ℝ) (r : Rand),
      (step s (Event.drawTick w h r)).handResults = s.handResults) ∧
    (∀ (s : AppState) (ticks : List ((ℝ × ℝ) × Rand)),
      (ticks.foldl (fun st t => step st (Event.drawTick t.1.1 t.1.2 t.2)) s).handResults =
        s.handResults) ∧
    (∀ (s : AppState) (rs : Results),
      (step s (Event.onResults rs)).handResults = some rs) := by
  refine ⟨fun s w h r => rfl, ?_, fun s rs => rfl⟩
  intro s ticks
  induction ticks generalizing s with
  | nil => rfl
  | cons hd tl ih =>
      simp only [List.foldl_cons]
      rw [ih]
      rfl

/-- C10: a key press with any key other than space leaves the state (and so the
canvas buffer) unchanged, and the space key clears the canvas to transparent. -/
theorem C10_only_space_clears :
    (∀ (s : AppState) (k : Char), k ≠ Char.ofNat 32 → step s (Event.keyPressed k) = s) ∧
    (∀ s : AppState, (step s (Event.keyPressed (Char.ofNat 32))).canvas = ∅) := by
  constructor
  · intro s k hk
    simp only [step, if_neg hk]
  · intro s
    simp [step]

/-- Witness for C10 at the concrete non-space key 'a'. -/
theorem C10_only_space_clears_witness :
    Char.ofNat 97 ≠ Char.ofNat 32 ∧
    step initialState (Event.keyPressed (Char.ofNat 97)) = initialState :=
  ⟨by decide, C10_only_space_clears.1 initialState (Char.ofNat 97) (by decide)⟩

end SprayCanvas
